import Mathlib

/-!
Verification of the flight-controller core (fc-backend/src/planes.rs).

The Rust module is pure floating-point code; it is embedded here over the
real numbers: every `f64` becomes `ℝ`, `f64::to_radians`, `sin`, `cos`,
`sqrt` and `atan2` become their real counterparts, Rust `String` becomes
Lean `String`, `Vec<T>`/`&[T]` become `List T`, and `Option<T>` becomes
`Option T`.  The demo generator's random number generator is modelled as
injectable streams of draws, and its unbounded retry loop for fresh
callsigns is given explicit fuel, so the generator returns `Option`.
-/

/-- Number of demo airplanes to generate (constant `NUM_DEMO_PLANES`). -/
def NUM_DEMO_PLANES : ℕ := 20

/-- Linz Airport latitude (constant `LNZ_LAT`). -/
noncomputable def LNZ_LAT : ℝ := 48.238575

/-- Linz Airport longitude (constant `LNZ_LNG`). -/
noncomputable def LNZ_LNG : ℝ := 14.191473

/-- Earth's radius in nautical miles (constant `EARTH_RADIUS_NM`). -/
noncomputable def EARTH_RADIUS_NM : ℝ := 3440.065

/-- Alert distance threshold (constant `ALERT_DISTANCE_NM`). -/
noncomputable def ALERT_DISTANCE_NM : ℝ := 5.0

/-- Alert altitude-difference threshold (constant `ALERT_ALTITUDE_DIFF_FT`). -/
noncomputable def ALERT_ALTITUDE_DIFF_FT : ℝ := 1000.0

/-- The `Airplane` struct of planes.rs. -/
structure Airplane where
  callsign : String
  aircraft_type : String
  latitude : ℝ
  longitude : ℝ
  altitude_ft : ℝ
  speed_kn : ℝ
  heading_deg : ℝ

/-- The `Alert` struct of planes.rs. -/
structure Alert where
  plane1_callsign : String
  plane2_callsign : String
  distance_nm : ℝ
  altitude_diff_ft : ℝ

/-- Real model of `f64::to_radians`: multiplication by π / 180. -/
noncomputable def toRadians (x : ℝ) : ℝ := x * (Real.pi / 180)

/-- Real model of `f64::atan2` (four-quadrant arctangent), by cases on the
signs of the two arguments as in the IEEE definition. -/
noncomputable def atan2 (y x : ℝ) : ℝ :=
  if 0 < x then Real.arctan (y / x)
  else if x < 0 then
    (if 0 ≤ y then Real.arctan (y / x) + Real.pi else Real.arctan (y / x) - Real.pi)
  else if 0 < y then Real.pi / 2
  else if y < 0 then -(Real.pi / 2)
  else 0

/-- `haversine_distance_nm` of planes.rs, lines 141-152. -/
noncomputable def haversine_distance_nm (lat1 lng1 lat2 lng2 : ℝ) : ℝ :=
  let lat1_rad := toRadians lat1
  let lat2_rad := toRadians lat2
  let delta_lat := toRadians (lat2 - lat1)
  let delta_lng := toRadians (lng2 - lng1)
  let a := Real.sin (delta_lat / 2) ^ 2 +
    Real.cos lat1_rad * Real.cos lat2_rad * Real.sin (delta_lng / 2) ^ 2
  let c := 2 * atan2 (Real.sqrt a) (Real.sqrt (1 - a))
  EARTH_RADIUS_NM * c

/-- `check_alert_between_planes` of planes.rs, lines 155-174. -/
noncomputable def check_alert_between_planes (plane1 plane2 : Airplane) : Option Alert :=
  let distance_nm := haversine_distance_nm
    plane1.latitude plane1.longitude plane2.latitude plane2.longitude
  let altitude_diff_ft := |plane1.altitude_ft - plane2.altitude_ft|
  if distance_nm ≤ ALERT_DISTANCE_NM ∧ altitude_diff_ft < ALERT_ALTITUDE_DIFF_FT then
    some { plane1_callsign := plane1.callsign, plane2_callsign := plane2.callsign,
           distance_nm := distance_nm, altitude_diff_ft := altitude_diff_ft }
  else none

/-- `calculate_airplane_positions` of planes.rs, lines 115-138. -/
noncomputable def calculate_airplane_positions
    (planes : List Airplane) (elapsed_seconds : ℝ) : List Airplane :=
  planes.map fun plane =>
    let distance_traveled_nm := (plane.speed_kn * elapsed_seconds) / 3600
    let heading_rad := toRadians plane.heading_deg
    let lat_offset := (distance_traveled_nm / 60) * Real.cos heading_rad
    let lng_offset :=
      (distance_traveled_nm / 60) * Real.sin heading_rad / Real.cos (toRadians plane.latitude)
    { plane with
      latitude := plane.latitude + lat_offset,
      longitude := plane.longitude + lng_offset }

/-- The body of the inner loop of `check_all_alerts`: the check the source
performs for the index pair (i, j), reading both planes by index. -/
noncomputable def checkPairAt (planes : List Airplane) (i j : ℕ) : Option Alert :=
  match planes[i]?, planes[j]? with
  | some p, some q => check_alert_between_planes p q
  | _, _ => none

/-- `check_all_alerts` of planes.rs, lines 177-190: for i in 0..len,
for j in (i+1)..len, push the alert when the pair check returns one. -/
noncomputable def check_all_alerts (planes : List Airplane) : List Alert :=
  (List.range planes.length).flatMap fun i =>
    (List.range' (i + 1) (planes.length - (i + 1))).filterMap fun j =>
      checkPairAt planes i j

/-- The index pairs (i, j), i < j < n, in the order the nested loops of
`check_all_alerts` visit them: increasing i, then increasing j. -/
def indexPairs (n : ℕ) : List (ℕ × ℕ) :=
  (List.range n).flatMap fun i =>
    (List.range' (i + 1) (n - (i + 1))).map fun j => (i, j)

/-- Modelled from the spec (§4.2): the haversine great-circle formula as the
spec spells it out, with Earth radius fixed at 3440.065 nautical miles,
`a = sin²(Δlat/2) + cos(lat1)·cos(lat2)·sin²(Δlng/2)` and
`distance = 2·R·atan2(√a, √(1-a))`, all angles converted to radians. -/
noncomputable def specHaversineFormula (lat1 lng1 lat2 lng2 : ℝ) : ℝ :=
  let a := Real.sin (toRadians (lat2 - lat1) / 2) ^ 2 +
    Real.cos (toRadians lat1) * Real.cos (toRadians lat2) *
      Real.sin (toRadians (lng2 - lng1) / 2) ^ 2
  2 * 3440.065 * atan2 (Real.sqrt a) (Real.sqrt (1 - a))

/-- Modelled from the spec (§4.1): one propagation step for one aircraft,
as the spec spells it out: `distanceNm = speedKn * elapsedSeconds / 3600`,
`latOffsetDeg = (distanceNm / 60) * cos(headingRad)`,
`lngOffsetDeg = (distanceNm / 60) * sin(headingRad) / cos(latitudeRad)`,
new latitude = old + latOffset, new longitude = old + lngOffset. -/
noncomputable def specAdvancePlane (plane : Airplane) (elapsedSeconds : ℝ) : Airplane :=
  let distanceNm := (plane.speed_kn * elapsedSeconds) / 3600
  let headingRad := toRadians plane.heading_deg
  let latOffsetDeg := (distanceNm / 60) * Real.cos headingRad
  let lngOffsetDeg := (distanceNm / 60) * Real.sin headingRad / Real.cos (toRadians plane.latitude)
  { plane with
    latitude := plane.latitude + latOffsetDeg,
    longitude := plane.longitude + lngOffsetDeg }

/-- The first test aircraft of `test_alert_detection` (planes.rs, lines 214-222). -/
noncomputable def testPlaneMid : Airplane :=
  { callsign := "TEST1", aircraft_type := "Boeing 737", latitude := 48.250000,
    longitude := 14.191473, altitude_ft := 30000.0, speed_kn := 120.0, heading_deg := 0.0 }

/-- The nearby test aircraft of `test_alert_detection` (planes.rs, lines 225-233). -/
noncomputable def testPlaneClose : Airplane :=
  { callsign := "TEST2", aircraft_type := "Airbus A320", latitude := 48.265000,
    longitude := 14.191473, altitude_ft := 30500.0, speed_kn := 120.0, heading_deg := 180.0 }

/-- The distant test aircraft of `test_alert_detection` (planes.rs, lines 236-244). -/
noncomputable def testPlaneFar : Airplane :=
  { callsign := "TEST3", aircraft_type := "Boeing 777", latitude := 48.350000,
    longitude := 14.191473, altitude_ft := 30500.0, speed_kn := 120.0, heading_deg := 90.0 }

/-- An aircraft sitting at the north pole, for the polar edge case. -/
noncomputable def northPolePlane : Airplane :=
  { callsign := "POLE01", aircraft_type := "Test", latitude := 90,
    longitude := 0, altitude_ft := 1000, speed_kn := 100, heading_deg := 90 }

/-- The aircraft-type catalog of `generate_demo_airplanes` (planes.rs,
lines 42-46). -/
def aircraft_types : List String :=
  ["Boeing 737-800", "Airbus A320", "Boeing 777-200", "Airbus A319",
   "Boeing 787-8", "Airbus A330", "Embraer E190", "Boeing 757-200",
   "Airbus A321", "ATR 72-600", "Bombardier CRJ900", "Boeing 767-300"]

/-- One candidate-callsign draw of the generator's retry loop: the three
letter indices (0..25) and three digit indices (0..9) the rng produces. -/
abbrev CsTuple : Type := Fin 26 × Fin 26 × Fin 26 × Fin 10 × Fin 10 × Fin 10

/-- The letter character the source computes as `b'A' + draw`. -/
def letterChar (k : Fin 26) : Char := Char.ofNat (65 + k.val)

/-- The digit character the source computes as `b'0' + draw`. -/
def digitChar (k : Fin 10) : Char := Char.ofNat (48 + k.val)

/-- The candidate callsign built from one draw: three letters followed by
three digits (planes.rs, lines 78-84). -/
def mkCallsign (t : CsTuple) : String :=
  String.mk [letterChar t.1, letterChar t.2.1, letterChar t.2.2.1,
    digitChar t.2.2.2.1, digitChar t.2.2.2.2.1, digitChar t.2.2.2.2.2]

/-- Rust `callsign.starts_with("TEST")`, the test-aircraft marker. -/
def hasTestMarker (s : String) : Bool :=
  match s.data with
  | a :: b :: c :: d :: _ => a == 'T' && b == 'E' && c == 'S' && d == 'T'
  | _ => false

/-- One aircraft's worth of non-callsign random draws (planes.rs,
lines 93-107). -/
structure PlaneRand where
  typeIdx : ℕ
  distanceKm : ℝ
  bearing : ℝ
  altitudeFt : ℝ
  speedKn : ℝ
  headingDeg : ℝ

/-- The retry loop of planes.rs, lines 77-90: draw candidate callsigns from
the stream until one is not in `used`.  Explicit fuel bounds the retries;
on success it returns the fresh callsign and the next stream position. -/
def genFreshCallsign (used : List String) (s : ℕ → CsTuple) : ℕ → ℕ → Option (String × ℕ)
  | _, 0 => none
  | start, fuel + 1 =>
    let callsign := mkCallsign (s start)
    if callsign ∈ used then genFreshCallsign used s (start + 1) fuel
    else some (callsign, start + 1)

/-- One random plane (planes.rs, lines 92-108): placed by a polar offset
around the LNZ reference point, other fields taken from the draws. -/
noncomputable def mkRandomPlane (callsign : String) (r : PlaneRand) : Airplane :=
  let lat_offset := (r.distanceKm / 111.32) * Real.cos r.bearing
  let lng_offset := (r.distanceKm / (111.32 * Real.cos (toRadians LNZ_LAT))) * Real.sin r.bearing
  { callsign := callsign,
    aircraft_type := aircraft_types.getD r.typeIdx (String.mk []),
    latitude := LNZ_LAT + lat_offset,
    longitude := LNZ_LNG + lng_offset,
    altitude_ft := r.altitudeFt,
    speed_kn := r.speedKn,
    heading_deg := r.headingDeg }

/-- The generator's loop over the remaining planes (planes.rs, lines
74-109), threading the used-callsign set and the stream positions. -/
noncomputable def randomPlanes (s : ℕ → CsTuple) (r : ℕ → PlaneRand) (fuel : ℕ) :
    ℕ → List String → ℕ → ℕ → Option (List Airplane)
  | 0, _, _, _ => some []
  | count + 1, used, csPos, planeIdx =>
    match genFreshCallsign used s csPos fuel with
    | none => none
    | some (callsign, csPos2) =>
      match randomPlanes s r fuel count (callsign :: used) csPos2 (planeIdx + 1) with
      | none => none
      | some rest => some (mkRandomPlane callsign (r planeIdx) :: rest)

/-- The first fixed test plane (planes.rs, lines 49-57). -/
noncomputable def testPlane1 : Airplane :=
  { callsign := "TEST001", aircraft_type := "Boeing 737-800", latitude := 48.288158,
    longitude := 14.191473, altitude_ft := 30000.0, speed_kn := 120.0, heading_deg := 180.0 }

/-- The second fixed test plane (planes.rs, lines 59-67). -/
noncomputable def testPlane2 : Airplane :=
  { callsign := "TEST002", aircraft_type := "Airbus A320", latitude := 48.188992,
    longitude := 14.191473, altitude_ft := 29500.0, speed_kn := 120.0, heading_deg := 0.0 }

/-- `generate_demo_airplanes` of planes.rs, lines 38-112: the two fixed
test planes first, then `NUM_DEMO_PLANES - 2` random planes whose fresh
callsigns avoid the used set seeded with the two test callsigns. -/
noncomputable def generate_demo_airplanes (s : ℕ → CsTuple) (r : ℕ → PlaneRand)
    (fuel : ℕ) : Option (List Airplane) :=
  match randomPlanes s r fuel (NUM_DEMO_PLANES - 2) ["TEST001", "TEST002"] 0 0 with
  | none => none
  | some rest => some (testPlane1 :: testPlane2 :: rest)

/-- A concrete callsign stream whose successive draws differ in the first
letter, so every retry loop succeeds on its first attempt. -/
def csStreamW (k : ℕ) : CsTuple :=
  (⟨k % 26, Nat.mod_lt k (by norm_num)⟩, 0, 0, 0, 0, 0)

/-- A concrete stream of non-callsign draws. -/
noncomputable def planeRandW (_ : ℕ) : PlaneRand :=
  { typeIdx := 0, distanceKm := 0, bearing := 0, altitudeFt := 0,
    speedKn := 0, headingDeg := 0 }

/- ### Helper lemmas -/

theorem atan2_of_pos (y x : ℝ) (hx : 0 < x) : atan2 y x = Real.arctan (y / x) := by
  unfold atan2
  rw [if_pos hx]

/-- On a common longitude, with the latitude difference δ in [0, 180), the
haversine distance collapses to radius times δ in radians. -/
theorem haversine_same_lng (lat1 lat2 lng : ℝ)
    (h0 : 0 ≤ lat2 - lat1) (h1 : lat2 - lat1 < 180) :
    haversine_distance_nm lat1 lng lat2 lng =
      EARTH_RADIUS_NM * toRadians (lat2 - lat1) := by
  have hpi := Real.pi_pos
  have hrad0 : toRadians 0 = 0 := by unfold toRadians; ring
  unfold haversine_distance_nm
  dsimp only
  rw [sub_self, hrad0]
  rw [show Real.sin ((0:ℝ) / 2) ^ 2 = 0 by norm_num [Real.sin_zero], mul_zero, add_zero]
  set x := toRadians (lat2 - lat1) / 2 with hxdef
  have hx0 : 0 ≤ x := by
    rw [hxdef]
    unfold toRadians
    positivity
  have hxlt : x < Real.pi / 2 := by
    rw [hxdef]
    unfold toRadians
    nlinarith
  have hsin0 : (0:ℝ) ≤ Real.sin x :=
    Real.sin_nonneg_of_nonneg_of_le_pi hx0 (by linarith)
  have hcos0 : (0:ℝ) < Real.cos x :=
    Real.cos_pos_of_mem_Ioo ⟨by linarith, hxlt⟩
  have hsq : Real.sqrt (Real.sin x ^ 2) = Real.sin x := Real.sqrt_sq hsin0
  have hcsq : Real.sqrt (1 - Real.sin x ^ 2) = Real.cos x := by
    rw [← Real.cos_sq' x]
    exact Real.sqrt_sq hcos0.le
  rw [hsq, hcsq, atan2_of_pos _ _ hcos0, ← Real.tan_eq_sin_div_cos,
    Real.arctan_tan (by linarith) hxlt]
  rw [hxdef]
  ring

/- ### Claims -/

/-- C2: `haversine_distance_nm` equals the spec's haversine great-circle
formula with Earth radius 3440.065 nautical miles, for every pair of
coordinate pairs. -/
theorem claim_C2_haversine_formula (lat1 lng1 lat2 lng2 : ℝ) :
    haversine_distance_nm lat1 lng1 lat2 lng2 =
      specHaversineFormula lat1 lng1 lat2 lng2 := by
  unfold haversine_distance_nm specHaversineFormula EARTH_RADIUS_NM
  ring

/-- C4: `calculate_airplane_positions` advances every aircraft of the input
by exactly the spec's flat-earth rule: distanceNm = speedKn·elapsed/3600,
latOffsetDeg = (distanceNm/60)·cos(headingRad),
lngOffsetDeg = (distanceNm/60)·sin(headingRad)/cos(latitudeRad), each added
to the old coordinate with no wraparound or clamping. -/
theorem claim_C4_advance_formula (planes : List Airplane) (elapsedSeconds : ℝ) :
    calculate_airplane_positions planes elapsedSeconds =
      planes.map fun p => specAdvancePlane p elapsedSeconds := rfl

/-- C5: `calculate_airplane_positions` keeps cardinality and order, and the
callsign, aircraft type, altitude, speed and heading of the entry at every
index are copied unchanged from the input entry at the same index. -/
theorem claim_C5_frame (planes : List Airplane) (elapsedSeconds : ℝ) :
    (calculate_airplane_positions planes elapsedSeconds).length = planes.length ∧
    ∀ i : ℕ,
      ((calculate_airplane_positions planes elapsedSeconds)[i]?.map fun p => p.callsign) =
        (planes[i]?.map fun p => p.callsign) ∧
      ((calculate_airplane_positions planes elapsedSeconds)[i]?.map fun p => p.aircraft_type) =
        (planes[i]?.map fun p => p.aircraft_type) ∧
      ((calculate_airplane_positions planes elapsedSeconds)[i]?.map fun p => p.altitude_ft) =
        (planes[i]?.map fun p => p.altitude_ft) ∧
      ((calculate_airplane_positions planes elapsedSeconds)[i]?.map fun p => p.speed_kn) =
        (planes[i]?.map fun p => p.speed_kn) ∧
      ((calculate_airplane_positions planes elapsedSeconds)[i]?.map fun p => p.heading_deg) =
        (planes[i]?.map fun p => p.heading_deg) := by
  unfold calculate_airplane_positions
  refine ⟨List.length_map _ _, fun i => ?_⟩
  rw [List.getElem?_map]
  cases planes[i]? <;> simp

/-- C7: advancing a population by zero elapsed seconds returns the input
unchanged, every field of every aircraft equal. -/
theorem claim_C7_zero_elapsed (planes : List Airplane) :
    calculate_airplane_positions planes 0 = planes := by
  unfold calculate_airplane_positions
  have h : ∀ p : Airplane,
      ({ p with
        latitude := p.latitude + ((p.speed_kn * 0) / 3600 / 60) *
          Real.cos (toRadians p.heading_deg),
        longitude := p.longitude + ((p.speed_kn * 0) / 3600 / 60) *
          Real.sin (toRadians p.heading_deg) / Real.cos (toRadians p.latitude) } : Airplane)
      = p := by
    intro p
    simp
  exact (List.map_congr_left fun p _ => h p).trans (List.map_id planes)

/-- C8: at latitude ±90° the divisor of the longitude-offset computation of
`calculate_airplane_positions` — the cosine of the latitude in radians — is
zero, so that computation divides by zero, the latent polar failure the spec
describes. -/
theorem claim_C8_polar_division (plane : Airplane)
    (h : plane.latitude = 90 ∨ plane.latitude = -90) :
    Real.cos (toRadians plane.latitude) = 0 := by
  have h90 : toRadians (90:ℝ) = Real.pi / 2 := by unfold toRadians; ring
  rcases h with h | h <;> rw [h]
  · rw [h90, Real.cos_pi_div_two]
  · have : toRadians (-90:ℝ) = -(Real.pi / 2) := by unfold toRadians; ring
    rw [this, Real.cos_neg, Real.cos_pi_div_two]

/-- C8 witness: the aircraft at latitude 90 makes that divisor zero. -/
theorem claim_C8_polar_division_witness :
    Real.cos (toRadians northPolePlane.latitude) = 0 :=
  claim_C8_polar_division northPolePlane (Or.inl rfl)

/-- The distance of the two nearby test aircraft is under the alert
threshold: 3440.065 · 0.015 · π / 180 ≈ 0.90 nm ≤ 5 nm. -/
theorem close_pair_le :
    haversine_distance_nm testPlaneMid.latitude testPlaneMid.longitude
      testPlaneClose.latitude testPlaneClose.longitude ≤ ALERT_DISTANCE_NM := by
  show haversine_distance_nm 48.250000 14.191473 48.265000 14.191473 ≤ ALERT_DISTANCE_NM
  rw [haversine_same_lng 48.250000 48.265000 14.191473 (by norm_num) (by norm_num)]
  unfold EARTH_RADIUS_NM toRadians ALERT_DISTANCE_NM
  nlinarith [Real.pi_lt_d2, Real.pi_pos]

/-- The distance of the two far test aircraft exceeds the alert threshold:
3440.065 · 0.1 · π / 180 ≈ 6.0 nm > 5 nm. -/
theorem far_pair_gt :
    ALERT_DISTANCE_NM < haversine_distance_nm testPlaneMid.latitude testPlaneMid.longitude
      testPlaneFar.latitude testPlaneFar.longitude := by
  show ALERT_DISTANCE_NM < haversine_distance_nm 48.250000 14.191473 48.350000 14.191473
  rw [haversine_same_lng 48.250000 48.350000 14.191473 (by norm_num) (by norm_num)]
  unfold EARTH_RADIUS_NM toRadians ALERT_DISTANCE_NM
  nlinarith [Real.pi_gt_three, Real.pi_pos]

/-- C1: `check_alert_between_planes` returns an alert exactly when the
distance is at most 5.0 nm (inclusive) and the absolute altitude difference
is under 1000.0 ft (strict), the returned fields equal the computed distance
and altitude difference, the spec's nearby pair yields an alert, and the
spec's distant pair yields none. -/
theorem claim_C1_checkPair :
    (∀ a b : Airplane,
      ((check_alert_between_planes a b).isSome ↔
        haversine_distance_nm a.latitude a.longitude b.latitude b.longitude ≤ 5.0 ∧
          |a.altitude_ft - b.altitude_ft| < 1000.0) ∧
      ∀ al : Alert, check_alert_between_planes a b = some al →
        al.distance_nm = haversine_distance_nm a.latitude a.longitude b.latitude b.longitude ∧
        al.altitude_diff_ft = |a.altitude_ft - b.altitude_ft|) ∧
    (check_alert_between_planes testPlaneMid testPlaneClose).isSome = true ∧
    check_alert_between_planes testPlaneMid testPlaneFar = none := by
  refine ⟨fun a b => ⟨?_, ?_⟩, ?_, ?_⟩
  · unfold check_alert_between_planes ALERT_DISTANCE_NM ALERT_ALTITUDE_DIFF_FT
    dsimp only
    split_ifs with h
    · simp only [Option.isSome_some, true_iff]
      exact h
    · simp only [Option.isSome_none, Bool.false_eq_true, false_iff]
      exact h
  · intro al hal
    unfold check_alert_between_planes at hal
    dsimp only at hal
    split_ifs at hal with h
    · have heq := Option.some.inj hal
      subst heq
      exact ⟨rfl, rfl⟩
  · have halt : |testPlaneMid.altitude_ft - testPlaneClose.altitude_ft| <
        ALERT_ALTITUDE_DIFF_FT := by
      show |(30000.0:ℝ) - 30500.0| < ALERT_ALTITUDE_DIFF_FT
      unfold ALERT_ALTITUDE_DIFF_FT
      rw [show (30000.0:ℝ) - 30500.0 = -500 by norm_num, abs_neg, abs_of_nonneg (by norm_num)]
      norm_num
    unfold check_alert_between_planes
    dsimp only
    rw [if_pos ⟨close_pair_le, halt⟩]
    rfl
  · unfold check_alert_between_planes
    dsimp only
    rw [if_neg]
    intro hc
    exact absurd hc.1 (not_le.mpr far_pair_gt)

/-- C9 counterexample: at (0, 0) the haversine distance to
(0 + 0.01376, 0) is ≈ 0.826 nm, not within 0.1 of 1.0 nm. -/
theorem claim_C9_counterexample :
    ¬ |haversine_distance_nm 0 0 (0 + 0.01376) 0 - 1.0| ≤ 0.1 := by
  rw [haversine_same_lng 0 (0 + 0.01376) 0 (by norm_num) (by norm_num)]
  unfold EARTH_RADIUS_NM toRadians
  intro h
  rw [abs_le] at h
  nlinarith [Real.pi_lt_d2, Real.pi_pos, h.1]

/-- C9 (amended): for every (lat, lng), the haversine distance from
(lat, lng) to (lat + 0.015, lng) — the offset the repository's own test
uses — is within 0.1 of 1.0 nautical mile. -/
theorem claim_C9_amended (lat lng : ℝ) :
    |haversine_distance_nm lat lng (lat + 0.015) lng - 1.0| ≤ 0.1 := by
  rw [haversine_same_lng lat (lat + 0.015) lng (by norm_num) (by norm_num)]
  unfold EARTH_RADIUS_NM toRadians
  rw [abs_le]
  constructor
  · nlinarith [Real.pi_gt_d6]
  · nlinarith [Real.pi_lt_d2]

/-- The haversine distance is symmetric in its two coordinate pairs. -/
theorem haversine_comm (lat1 lng1 lat2 lng2 : ℝ) :
    haversine_distance_nm lat1 lng1 lat2 lng2 =
      haversine_distance_nm lat2 lng2 lat1 lng1 := by
  have h1 : toRadians (lat1 - lat2) = -toRadians (lat2 - lat1) := by unfold toRadians; ring
  have h2 : toRadians (lng1 - lng2) = -toRadians (lng2 - lng1) := by unfold toRadians; ring
  unfold haversine_distance_nm
  dsimp only
  have ha : Real.sin (toRadians (lat1 - lat2) / 2) ^ 2 +
      Real.cos (toRadians lat2) * Real.cos (toRadians lat1) *
        Real.sin (toRadians (lng1 - lng2) / 2) ^ 2 =
      Real.sin (toRadians (lat2 - lat1) / 2) ^ 2 +
      Real.cos (toRadians lat1) * Real.cos (toRadians lat2) *
        Real.sin (toRadians (lng2 - lng1) / 2) ^ 2 := by
    rw [h1, h2, neg_div, neg_div, Real.sin_neg, Real.sin_neg]
    ring
  rw [ha]

/-- C10: the pair check is symmetric up to callsign order: swapping the two
aircraft preserves whether an alert is returned, and when both orders
return one, the alerts agree on distance and altitude difference and have
their callsign fields swapped. -/
theorem claim_C10_symmetric (a b : Airplane) :
    ((check_alert_between_planes a b).isSome ↔ (check_alert_between_planes b a).isSome) ∧
    ∀ al₁ al₂ : Alert, check_alert_between_planes a b = some al₁ →
      check_alert_between_planes b a = some al₂ →
      al₁.distance_nm = al₂.distance_nm ∧
      al₁.altitude_diff_ft = al₂.altitude_diff_ft ∧
      al₁.plane1_callsign = al₂.plane2_callsign ∧
      al₁.plane2_callsign = al₂.plane1_callsign := by
  have hd := haversine_comm a.latitude a.longitude b.latitude b.longitude
  have hab := abs_sub_comm a.altitude_ft b.altitude_ft
  unfold check_alert_between_planes
  dsimp only
  rw [hd, hab]
  constructor
  · split_ifs <;> simp
  · intro al₁ al₂ h₁ h₂
    split_ifs at h₁ h₂ with h
    · have heq₁ := Option.some.inj h₁
      have heq₂ := Option.some.inj h₂
      subst heq₁
      subst heq₂
      exact ⟨rfl, rfl, rfl, rfl⟩

/-- Membership in the index-pair enumeration is exactly i < j < n. -/
theorem mem_indexPairs (n i j : ℕ) : (i, j) ∈ indexPairs n ↔ i < j ∧ j < n := by
  unfold indexPairs
  simp only [List.mem_flatMap, List.mem_map, List.mem_range, List.mem_range'_1]
  constructor
  · rintro ⟨a, han, b, ⟨hb1, hb2⟩, heq⟩
    cases heq
    omega
  · rintro ⟨hij, hjn⟩
    exact ⟨i, by omega, j, ⟨by omega, by omega⟩, rfl⟩

/-- The index-pair enumeration is strictly increasing in the lexicographic
order: increasing i, then increasing j. -/
theorem indexPairs_pairwise (n : ℕ) :
    List.Pairwise (fun ij₁ ij₂ : ℕ × ℕ =>
      ij₁.1 < ij₂.1 ∨ (ij₁.1 = ij₂.1 ∧ ij₁.2 < ij₂.2)) (indexPairs n) := by
  unfold indexPairs
  rw [List.flatMap_def, List.pairwise_flatten]
  constructor
  · intro l hl
    rw [List.mem_map] at hl
    obtain ⟨i, _, rfl⟩ := hl
    rw [List.pairwise_map]
    exact (List.pairwise_lt_range' (i + 1) (n - (i + 1))).imp fun h => Or.inr ⟨rfl, h⟩
  · rw [List.pairwise_map]
    refine (List.pairwise_lt_range n).imp ?_
    intro a b hab x hx y hy
    rw [List.mem_map] at hx hy
    obtain ⟨jx, _, rfl⟩ := hx
    obtain ⟨jy, _, rfl⟩ := hy
    exact Or.inl hab

/-- The nested loops of `check_all_alerts` are the filterMap of the pair
check over the index-pair enumeration. -/
theorem check_all_alerts_eq_filterMap (planes : List Airplane) :
    check_all_alerts planes =
      (indexPairs planes.length).filterMap fun ij => checkPairAt planes ij.1 ij.2 := by
  unfold check_all_alerts indexPairs
  rw [List.filterMap_flatMap]
  simp only [List.filterMap_map]
  rfl

/-- Bridge: the sum of a function mapped over `List.range` is the Finset
range sum. -/
theorem list_range_map_sum (f : ℕ → ℕ) (n : ℕ) :
    ((List.range n).map f).sum = ∑ i ∈ Finset.range n, f i := by
  induction n with
  | zero => rfl
  | succ n ih =>
    rw [List.range_succ, List.map_append, List.sum_append, Finset.sum_range_succ, ih]
    simp

/-- The scan emits at most n(n-1)/2 alerts. -/
theorem check_all_alerts_length_le (planes : List Airplane) :
    (check_all_alerts planes).length ≤ planes.length * (planes.length - 1) / 2 := by
  unfold check_all_alerts
  rw [List.length_flatMap]
  calc ((List.range planes.length).map
        (List.length ∘ fun i => (List.range' (i + 1) (planes.length - (i + 1))).filterMap
          fun j => checkPairAt planes i j)).sum
      ≤ ((List.range planes.length).map fun i => planes.length - (i + 1)).sum := by
        refine List.sum_le_sum ?_
        intro i _
        calc ((List.range' (i + 1) (planes.length - (i + 1))).filterMap
              fun j => checkPairAt planes i j).length
            ≤ (List.range' (i + 1) (planes.length - (i + 1))).length :=
              List.length_filterMap_le _ _
          _ = planes.length - (i + 1) := List.length_range' _ _ _
    _ = ∑ i ∈ Finset.range planes.length, (planes.length - (i + 1)) :=
        list_range_map_sum _ _
    _ = ∑ i ∈ Finset.range planes.length, (planes.length - 1 - i) :=
        Finset.sum_congr rfl fun i _ => by omega
    _ = ∑ i ∈ Finset.range planes.length, i := by
        simpa using Finset.sum_range_reflect (fun j => j) planes.length
    _ = planes.length * (planes.length - 1) / 2 := by
        have := Finset.sum_range_id_mul_two planes.length
        omega

/-- An alert is in the scan's output exactly when some index pair i < j < n
produces it. -/
theorem mem_check_all_alerts (planes : List Airplane) (al : Alert) :
    al ∈ check_all_alerts planes ↔
      ∃ i j, i < j ∧ j < planes.length ∧ checkPairAt planes i j = some al := by
  unfold check_all_alerts
  simp only [List.mem_flatMap, List.mem_range, List.mem_filterMap, List.mem_range'_1]
  constructor
  · rintro ⟨i, hi, j, ⟨hj1, hj2⟩, hc⟩
    exact ⟨i, j, by omega, by omega, hc⟩
  · rintro ⟨i, j, hij, hjn, hc⟩
    exact ⟨i, by omega, j, ⟨by omega, by omega⟩, hc⟩

/-- A returned alert carries the two planes' callsigns in order. -/
theorem check_alert_callsigns (p q : Airplane) (al : Alert)
    (h : check_alert_between_planes p q = some al) :
    al.plane1_callsign = p.callsign ∧ al.plane2_callsign = q.callsign := by
  unfold check_alert_between_planes at h
  dsimp only at h
  split_ifs at h
  have heq := Option.some.inj h
  subst heq
  exact ⟨rfl, rfl⟩

/-- With both indices in bounds, the loop-body check reads the two planes. -/
theorem checkPairAt_eq (planes : List Airplane) (i j : ℕ)
    (hi : i < planes.length) (hj : j < planes.length) :
    checkPairAt planes i j = check_alert_between_planes planes[i] planes[j] := by
  unfold checkPairAt
  rw [List.getElem?_eq_getElem hi, List.getElem?_eq_getElem hj]

/-- Under the unique-callsign invariant, equal callsigns force equal indices. -/
theorem callsign_index_inj (planes : List Airplane)
    (h : (planes.map fun p => p.callsign).Nodup) {i j : ℕ}
    (hi : i < planes.length) (hj : j < planes.length)
    (he : (planes[i]).callsign = (planes[j]).callsign) : i = j := by
  have hi' : i < (planes.map fun p => p.callsign).length := by
    rw [List.length_map]; exact hi
  have hj' : j < (planes.map fun p => p.callsign).length := by
    rw [List.length_map]; exact hj
  apply (List.Nodup.getElem_inj_iff h).mp
  show (planes.map fun p => p.callsign)[i] = (planes.map fun p => p.callsign)[j]
  rw [List.getElem_map, List.getElem_map]
  exact he

/-- C3: the scan is the pair check filtered over exactly the index pairs
i < j < n, enumerated once each in increasing-i-then-increasing-j order
(never a self pair), its output has at most n(n-1)/2 alerts, every alert
references callsigns present in the population, under the unique-callsign
invariant the output never contains both orderings of a pair, and empty or
single-element populations yield the empty list. -/
theorem claim_C3_scan (planes : List Airplane) :
    check_all_alerts planes =
      ((indexPairs planes.length).filterMap fun ij => checkPairAt planes ij.1 ij.2) ∧
    (∀ i j : ℕ, (i, j) ∈ indexPairs planes.length ↔ i < j ∧ j < planes.length) ∧
    List.Pairwise (fun ij₁ ij₂ : ℕ × ℕ =>
      ij₁.1 < ij₂.1 ∨ (ij₁.1 = ij₂.1 ∧ ij₁.2 < ij₂.2)) (indexPairs planes.length) ∧
    (check_all_alerts planes).length ≤ planes.length * (planes.length - 1) / 2 ∧
    (∀ al ∈ check_all_alerts planes,
      (∃ p ∈ planes, al.plane1_callsign = p.callsign) ∧
      ∃ q ∈ planes, al.plane2_callsign = q.callsign) ∧
    ((planes.map fun p => p.callsign).Nodup →
      ∀ al₁ ∈ check_all_alerts planes, ∀ al₂ ∈ check_all_alerts planes,
        ¬(al₁.plane1_callsign = al₂.plane2_callsign ∧
          al₁.plane2_callsign = al₂.plane1_callsign)) ∧
    check_all_alerts [] = [] ∧ ∀ p : Airplane, check_all_alerts [p] = [] := by
  refine ⟨check_all_alerts_eq_filterMap planes, mem_indexPairs planes.length,
    indexPairs_pairwise planes.length, check_all_alerts_length_le planes, ?_, ?_, ?_, ?_⟩
  · intro al hal
    rw [mem_check_all_alerts] at hal
    obtain ⟨i, j, hij, hjn, hc⟩ := hal
    have hin : i < planes.length := by omega
    rw [checkPairAt_eq planes i j hin hjn] at hc
    obtain ⟨h1, h2⟩ := check_alert_callsigns _ _ _ hc
    exact ⟨⟨planes[i], List.getElem_mem hin, h1⟩, ⟨planes[j], List.getElem_mem hjn, h2⟩⟩
  · intro hnd al₁ h₁ al₂ h₂ hc
    rw [mem_check_all_alerts] at h₁ h₂
    obtain ⟨i₁, j₁, hij₁, hjn₁, hc₁⟩ := h₁
    obtain ⟨i₂, j₂, hij₂, hjn₂, hc₂⟩ := h₂
    have hin₁ : i₁ < planes.length := by omega
    have hin₂ : i₂ < planes.length := by omega
    rw [checkPairAt_eq planes i₁ j₁ hin₁ hjn₁] at hc₁
    rw [checkPairAt_eq planes i₂ j₂ hin₂ hjn₂] at hc₂
    obtain ⟨ha₁, hb₁⟩ := check_alert_callsigns _ _ _ hc₁
    obtain ⟨ha₂, hb₂⟩ := check_alert_callsigns _ _ _ hc₂
    have e₁ : i₁ = j₂ := by
      refine callsign_index_inj planes hnd hin₁ hjn₂ ?_
      rw [← ha₁, ← hb₂]
      exact hc.1
    have e₂ : j₁ = i₂ := by
      refine callsign_index_inj planes hnd hjn₁ hin₂ ?_
      rw [← hb₁, ← ha₂]
      exact hc.2
    omega
  · rfl
  · intro p
    rfl

/-- No digit draw produces the letter of the test marker. -/
theorem digitChar_ne : ∀ d : Fin 10, (digitChar d == 'T') = false := by decide

/-- A generated candidate callsign never carries the test marker: its
fourth character is a digit. -/
theorem hasTestMarker_mkCallsign (t : CsTuple) : hasTestMarker (mkCallsign t) = false := by
  unfold hasTestMarker mkCallsign
  dsimp only
  rw [digitChar_ne t.2.2.2.1, Bool.and_false]

/-- A successful retry loop returns a callsign outside the used set, and it
is one of the generated candidates. -/
theorem genFreshCallsign_spec : ∀ (fuel start : ℕ) (used : List String) (s : ℕ → CsTuple)
    (c : String) (next : ℕ), genFreshCallsign used s start fuel = some (c, next) →
    c ∉ used ∧ ∃ t : CsTuple, c = mkCallsign t := by
  intro fuel
  induction fuel with
  | zero =>
    intro start used s c next h
    exact absurd h (by simp [genFreshCallsign])
  | succ fuel ih =>
    intro start used s c next h
    unfold genFreshCallsign at h
    dsimp only at h
    split_ifs at h with hmem
    · exact ih (start + 1) used s c next h
    · have heq := Option.some.inj h
      injection heq with h1 h2
      subst h1
      exact ⟨hmem, s start, rfl⟩

/-- A successful generator loop yields exactly `count` planes, with
pairwise-distinct callsigns, all outside the used set and none carrying the
test marker. -/
theorem randomPlanes_spec : ∀ (count : ℕ) (s : ℕ → CsTuple) (r : ℕ → PlaneRand)
    (fuel : ℕ) (used : List String) (csPos planeIdx : ℕ) (out : List Airplane),
    randomPlanes s r fuel count used csPos planeIdx = some out →
    out.length = count ∧
    (out.map fun p => p.callsign).Nodup ∧
    ∀ p ∈ out, p.callsign ∉ used ∧ hasTestMarker p.callsign = false := by
  intro count
  induction count with
  | zero =>
    intro s r fuel used csPos planeIdx out h
    unfold randomPlanes at h
    have heq := Option.some.inj h
    subst heq
    simp
  | succ count ih =>
    intro s r fuel used csPos planeIdx out h
    unfold randomPlanes at h
    cases hg : genFreshCallsign used s csPos fuel with
    | none =>
      rw [hg] at h
      exact absurd h (by simp)
    | some pair =>
      obtain ⟨callsign, csPos2⟩ := pair
      rw [hg] at h
      dsimp only at h
      cases hr : randomPlanes s r fuel count (callsign :: used) csPos2 (planeIdx + 1) with
      | none =>
        rw [hr] at h
        exact absurd h (by simp)
      | some rest =>
        rw [hr] at h
        have hout := Option.some.inj h
        subst hout
        obtain ⟨hfresh, t, hct⟩ := genFreshCallsign_spec fuel csPos used s callsign csPos2 hg
        obtain ⟨hlen, hnd, hall⟩ := ih s r fuel (callsign :: used) csPos2 (planeIdx + 1) rest hr
        refine ⟨by simp [hlen], ?_, ?_⟩
        · rw [List.map_cons, List.nodup_cons]
          refine ⟨?_, hnd⟩
          intro hmem
          rw [List.mem_map] at hmem
          obtain ⟨p, hp, hpc⟩ := hmem
          apply (hall p hp).1
          have hpcs : p.callsign = callsign := hpc
          rw [hpcs]
          exact List.mem_cons_self _ _
        · intro p hp
          rcases List.mem_cons.mp hp with hph | hpt
          · subst hph
            constructor
            · exact hfresh
            · show hasTestMarker callsign = false
              rw [hct]
              exact hasTestMarker_mkCallsign t
          · have hq := hall p hpt
            exact ⟨fun hm => hq.1 (List.mem_cons_of_mem _ hm), hq.2⟩

/-- C6: whenever the generator succeeds, it returns exactly 20 aircraft,
the two fixed test planes TEST001 and TEST002 first, exactly 2 aircraft
carrying the TEST callsign prefix, and all 20 callsigns pairwise distinct
(the retry loop only ever returns fresh callsigns). -/
theorem claim_C6_generate (s : ℕ → CsTuple) (r : ℕ → PlaneRand) (fuel : ℕ)
    (h : (generate_demo_airplanes s r fuel).isSome = true) :
    ((generate_demo_airplanes s r fuel).getD []).length = 20 ∧
    ((((generate_demo_airplanes s r fuel).getD []).take 2).map
      fun p => p.callsign) = ["TEST001", "TEST002"] ∧
    ((generate_demo_airplanes s r fuel).getD []).countP
      (fun p => hasTestMarker p.callsign) = 2 ∧
    (((generate_demo_airplanes s r fuel).getD []).map fun p => p.callsign).Nodup := by
  cases hr : randomPlanes s r fuel (NUM_DEMO_PLANES - 2) ["TEST001", "TEST002"] 0 0 with
  | none =>
    unfold generate_demo_airplanes at h
    rw [hr] at h
    exact absurd h (by simp)
  | some rest =>
    have hEq : generate_demo_airplanes s r fuel =
        some (testPlane1 :: testPlane2 :: rest) := by
      unfold generate_demo_airplanes
      rw [hr]
    rw [hEq]
    simp only [Option.getD_some]
    obtain ⟨hlen, hnd, hall⟩ :=
      randomPlanes_spec (NUM_DEMO_PLANES - 2) s r fuel ["TEST001", "TEST002"] 0 0 rest hr
    refine ⟨?_, rfl, ?_, ?_⟩
    · simp [hlen, NUM_DEMO_PLANES]
    · rw [List.countP_cons, List.countP_cons]
      have h1 : hasTestMarker testPlane1.callsign = true := by decide
      have h2 : hasTestMarker testPlane2.callsign = true := by decide
      have h0 : rest.countP (fun p => hasTestMarker p.callsign) = 0 := by
        rw [List.countP_eq_zero]
        intro p hp
        simp [(hall p hp).2]
      simp [h0, h1, h2]
    · rw [List.map_cons, List.map_cons, List.nodup_cons, List.nodup_cons]
      refine ⟨?_, ?_, hnd⟩
      · intro hmem
        rcases List.mem_cons.mp hmem with heq | hmem2
        · exact absurd heq (by decide)
        · rw [List.mem_map] at hmem2
          obtain ⟨p, hp, hpc⟩ := hmem2
          apply (hall p hp).1
          have hpcs : p.callsign = testPlane1.callsign := hpc
          rw [hpcs]
          show ("TEST001" : String) ∈ ["TEST001", "TEST002"]
          exact List.mem_cons_self _ _
      · intro hmem
        rw [List.mem_map] at hmem
        obtain ⟨p, hp, hpc⟩ := hmem
        apply (hall p hp).1
        have hpcs : p.callsign = testPlane2.callsign := hpc
        rw [hpcs]
        show ("TEST002" : String) ∈ ["TEST001", "TEST002"]
        exact List.mem_cons_of_mem _ (List.mem_cons_self _ _)

/-- C6 witness: with a stream of pairwise-distinct candidates and fuel 1
per retry the generator succeeds, and the conclusions hold for its output. -/
theorem claim_C6_generate_witness :
    ((generate_demo_airplanes csStreamW planeRandW 1).isSome = true) ∧
    (((generate_demo_airplanes csStreamW planeRandW 1).getD []).length = 20 ∧
     ((((generate_demo_airplanes csStreamW planeRandW 1).getD []).take 2).map
       fun p => p.callsign) = ["TEST001", "TEST002"] ∧
     ((generate_demo_airplanes csStreamW planeRandW 1).getD []).countP
       (fun p => hasTestMarker p.callsign) = 2 ∧
     (((generate_demo_airplanes csStreamW planeRandW 1).getD []).map
       fun p => p.callsign).Nodup) :=
  ⟨rfl, claim_C6_generate csStreamW planeRandW 1 rfl⟩
